import Mathlib

set_option maxRecDepth 10000

namespace Lightyear

/-!  Shallow embedding of the lightyear transport/middleware pipeline,
channel receivers, and client connection sync logic.

Sources embedded:
  - src/lightyear/src/transport/mod.rs (constants, PacketReceiver contract)
  - src/lightyear/src/client/io/config.rs (ClientTransport, SharedIoConfig::connect)
  - src/shared/src/channel/receivers/mod.rs (ChannelReceiver enum dispatch)
  - src/shared/src/client/connection.rs (Connection::update, recv_packet)
Parts of the repository referenced by that code but absent from the excerpt
(the concrete channel receiver state machines, the SyncManager internals,
the base Connection) are modelled from the spec; each such definition says
so in its doc comment.  -/

/-- IP address, modelling std::net::IpAddr restricted to the V4 form the
source uses for LOCAL_SOCKET. -/
inductive IpAddr where
  | v4 (a b c d : Nat)
  deriving DecidableEq, Repr

/-- Socket address: IP plus port, modelling std::net::SocketAddr. -/
structure SocketAddr where
  ip : IpAddr
  port : Nat
  deriving DecidableEq, Repr

/-- LOCAL_SOCKET from src/lightyear/src/transport/mod.rs: 127.0.0.1 port 0. -/
def LOCAL_SOCKET : SocketAddr := ⟨IpAddr.v4 127 0 0 1, 0⟩

/-- Maximum transmission unit from src/lightyear/src/transport/mod.rs. -/
def MTU : Nat := 1472

/-- Minimum MTU used by QUIC, from src/lightyear/src/transport/mod.rs. -/
def MIN_MTU : Nat := 1300

/-- ClientTransport from src/lightyear/src/client/io/config.rs.
The crossbeam channel endpoints of the LocalChannel variant are modelled
as opaque identifiers. -/
inductive ClientTransport where
  | udpSocket (addr : SocketAddr)
  | localChannel (recv : Nat) (send : Nat)
  | dummy
  deriving DecidableEq, Repr

/-- Default for ClientTransport (impl Default, config.rs lines 54-58). -/
def ClientTransport.defaultValue : ClientTransport :=
  ClientTransport.udpSocket LOCAL_SOCKET

/-- LinkConditionerConfig: latency, jitter, loss settings for the
receive-side conditioner middleware. -/
structure LinkConditionerConfig where
  incoming_latency_ms : Nat
  incoming_jitter_ms : Nat
  incoming_loss_pct : Nat
  deriving DecidableEq, Repr

/-- CompressionConfig: none, or one of the block compression codecs
(zstd with a level, lz4), as matched in SharedIoConfig::connect. -/
inductive CompressionConfig where
  | none
  | zstd (level : Int)
  | lz4
  deriving DecidableEq, Repr

/-- SharedIoConfig over the client transport selection, from
src/lightyear/src/transport/config.rs as used in config.rs. -/
structure SharedIoConfig where
  transport : ClientTransport
  conditioner : Option LinkConditionerConfig
  compression : CompressionConfig
  deriving DecidableEq, Repr

/-- One sender or receiver of the built Io, as the stack of boxed
middleware wrappers around the raw transport half that
SharedIoConfig::connect composes. -/
inductive IoLayer where
  | raw (transport : ClientTransport)
  | conditioner (cfg : LinkConditionerConfig) (inner : IoLayer)
  | compressor (inner : IoLayer)
  | decompressor (inner : IoLayer)
  deriving DecidableEq, Repr

/-- Whether a conditioner wrapper appears anywhere in a middleware stack. -/
def IoLayer.hasConditioner : IoLayer → Bool
  | IoLayer.raw _ => false
  | IoLayer.conditioner _ _ => true
  | IoLayer.compressor inner => inner.hasConditioner
  | IoLayer.decompressor inner => inner.hasConditioner

/-- The built Io: the sender and receiver middleware stacks.
The state, stats and event-channel plumbing fields of BaseIo are not
modelled; no claim concerns them. -/
structure Io where
  sender : IoLayer
  receiver : IoLayer
  deriving DecidableEq, Repr

/-- SharedIoConfig::connect from src/lightyear/src/client/io/config.rs,
lines 61-105: split the transport, wrap the receiver in a conditioner if
configured, then wrap both halves in compressor/decompressor if a
compression codec is configured. -/
def SharedIoConfig.connect (self : SharedIoConfig) : Io :=
  let sender : IoLayer := IoLayer.raw self.transport
  let receiver : IoLayer := IoLayer.raw self.transport
  let receiver : IoLayer :=
    match self.conditioner with
    | Option.some conditioner_config => IoLayer.conditioner conditioner_config receiver
    | Option.none => receiver
  match self.compression with
  | CompressionConfig.none => { sender := sender, receiver := receiver }
  | CompressionConfig.zstd _level =>
      { sender := IoLayer.compressor sender, receiver := IoLayer.decompressor receiver }
  | CompressionConfig.lz4 =>
      { sender := IoLayer.compressor sender, receiver := IoLayer.decompressor receiver }

/-- IoError, modelling the transport error type: an OS/socket level
failure, tagged with an opaque code. -/
inductive IoError where
  | socketFailure (code : Nat)
  deriving DecidableEq, Repr

/-- Result type of PacketReceiver::recv from
src/lightyear/src/transport/mod.rs lines 77-89:
Ok(None) when no data is available, Ok(Some(payload, source)) when a
packet arrived, Err(IoError) on an I/O failure. -/
abbrev RecvResult := Except IoError (Option (List Nat × SocketAddr))

/-- Modelled from the spec: the state of a transport packet receiver.
The concrete receiver implementations (UDP socket, local channel, dummy)
are not in the excerpt; the spec contract says recv is a non-blocking
poll over currently pending inbound packets, and that only an actual
socket-level failure produces an error. -/
structure PacketReceiverState where
  pending : List (List Nat × SocketAddr)
  socket_failed : Option IoError
  deriving DecidableEq, Repr

/-- Modelled from the spec: PacketReceiver::recv as a non-blocking poll.
A failed socket reports its IoError; otherwise an empty pending queue
returns Ok(None) and a nonempty one pops the first packet. -/
def PacketReceiverState.recv (r : PacketReceiverState) :
    RecvResult × PacketReceiverState :=
  match r.socket_failed with
  | Option.some e => (Except.error e, r)
  | Option.none =>
    match r.pending with
    | [] => (Except.ok Option.none, r)
    | p :: rest => (Except.ok (Option.some p), { r with pending := rest })

/-- Tick: the monotonically increasing simulation-step counter of the spec
(the Tick newtype itself is outside the excerpt; its ordering is the
counter order). -/
abbrev Tick := Nat

/-- Modelled from the spec: a timestamped sync ping probe (the
TimeSyncPingMessage type is outside the excerpt). -/
structure TimeSyncPingMessage where
  ping_id : Nat
  tick : Tick
  ping_sent_time : Nat
  deriving DecidableEq, Repr

/-- SyncMessage as used by Connection::update: the TimeSyncPing variant. -/
inductive SyncMessage where
  | timeSyncPing (ping : TimeSyncPingMessage)
  deriving DecidableEq, Repr

/-- ProtocolMessage as used by Connection::update: a sync message, or any
other application payload. -/
inductive ProtocolMessage where
  | sync (message : SyncMessage)
  | other (payload : List Nat)
  deriving DecidableEq, Repr

/-- ChannelKind: identifies a registered channel; the PingChannel is the
kind Connection::update buffers sync pings on. -/
inductive ChannelKind where
  | pingChannel
  | otherChannel (id : Nat)
  deriving DecidableEq, Repr

/-- SerializationError: a malformed header or payload found while
decoding a received packet. -/
inductive SerializationError where
  | malformedHeader
  deriving DecidableEq, Repr

/-- Modelled from the spec: the base connection message manager (outside
the excerpt); buffer_send appends the message to the per-channel send
queue. -/
structure MessageManager where
  send_queue : List (ProtocolMessage × ChannelKind)
  deriving DecidableEq, Repr

/-- Modelled from the spec: MessageManager::buffer_send queues an
outbound message on the given channel. -/
def MessageManager.buffer_send (m : MessageManager) (message : ProtocolMessage)
    (channel : ChannelKind) : MessageManager :=
  { m with send_queue := m.send_queue ++ [(message, channel)] }

/-- Modelled from the spec: the base (shared) Connection aggregated by the
client Connection; it owns the message manager, and its recv_packet
decodes the packet header and routes the payload to channel engines.
bookkeeping_steps counts update calls (channel bookkeeping). -/
structure BaseConnection where
  message_manager : MessageManager
  recv_log : List (List Nat)
  bookkeeping_steps : Nat
  deriving DecidableEq, Repr

/-- Modelled from the spec: base Connection::update performs periodic
bookkeeping delegation to the channel engines; it buffers no sync
messages itself. -/
def BaseConnection.update (base : BaseConnection) (_time : Nat) (_tick : Tick) :
    BaseConnection :=
  { base with bookkeeping_steps := base.bookkeeping_steps + 1 }

/-- Modelled from the spec: base Connection::recv_packet decodes the
header (here: the leading tick tag) and routes the payload to the
matching channel engine, returning the packet tick; an empty or
malformed packet is a SerializationError. The mutated base state is
returned alongside the result. -/
def BaseConnection.recv_packet (base : BaseConnection) (reader : List Nat) :
    Except SerializationError Tick × BaseConnection :=
  match reader with
  | [] => (Except.error SerializationError.malformedHeader, base)
  | tick :: payload =>
      (Except.ok tick, { base with recv_log := base.recv_log ++ [payload] })

/-- Modelled from the spec: the Sync Manager (its source is outside the
excerpt). It tracks the synced flag, a ping interval timer, how many
probes were sent, and the latest received server tick. -/
structure SyncManager where
  synced : Bool
  elapsed_ms : Nat
  ping_interval_ms : Nat
  sync_num_pings : Nat
  pings_sent : Nat
  latest_received_server_tick : Tick
  deriving DecidableEq, Repr

/-- Modelled from the spec: SyncManager::new as called by
Connection::new with the configured number of sync pings and interval. -/
def SyncManager.new (sync_num_pings : Nat) (sync_ping_interval_ms : Nat) :
    SyncManager :=
  { synced := false, elapsed_ms := 0, ping_interval_ms := sync_ping_interval_ms,
    sync_num_pings := sync_num_pings, pings_sent := 0,
    latest_received_server_tick := 0 }

/-- Modelled from the spec: SyncManager::is_synced. -/
def SyncManager.is_synced (s : SyncManager) : Bool := s.synced

/-- Modelled from the spec: SyncManager::update advances the ping
interval timer by the elapsed delta. -/
def SyncManager.update (s : SyncManager) (delta_ms : Nat) : SyncManager :=
  { s with elapsed_ms := s.elapsed_ms + delta_ms }

/-- Modelled from the spec: SyncManager::maybe_prepare_ping yields a
timestamped probe when the configured ping interval has elapsed,
resetting the timer; otherwise nothing. -/
def SyncManager.maybe_prepare_ping (s : SyncManager) (current_time : Nat)
    (current_tick : Tick) : Option TimeSyncPingMessage × SyncManager :=
  if s.ping_interval_ms ≤ s.elapsed_ms then
    (Option.some { ping_id := s.pings_sent, tick := current_tick,
                   ping_sent_time := current_time },
     { s with elapsed_ms := 0, pings_sent := s.pings_sent + 1 })
  else (Option.none, s)

/-- The client Connection from src/shared/src/client/connection.rs:
the base connection, the input buffer, and the sync manager. Inputs are
modelled as Nat. -/
structure Connection where
  base : BaseConnection
  input_buffer : List (Tick × Nat)
  sync_manager : SyncManager
  deriving DecidableEq, Repr

/-- Connection::add_input (connection.rs lines 41-43): push the input for
the given tick into the input buffer. -/
def Connection.add_input (c : Connection) (input : Nat) (tick : Tick) :
    Connection :=
  { c with input_buffer := c.input_buffer ++ [(tick, input)] }

/-- Connection::update from src/shared/src/client/connection.rs lines
45-70: update the base connection and the sync manager, then, only when
not synced, ask the sync manager for a ping probe and buffer it as a
TimeSyncPing on the PingChannel. -/
def Connection.update (c : Connection) (delta_ms : Nat) (time_manager : Nat)
    (tick_manager : Tick) : Connection :=
  let base := c.base.update time_manager tick_manager
  let sync_manager := c.sync_manager.update delta_ms
  if !sync_manager.is_synced then
    match sync_manager.maybe_prepare_ping time_manager tick_manager with
    | (Option.some sync_ping, sync_manager) =>
        let message := ProtocolMessage.sync (SyncMessage.timeSyncPing sync_ping)
        let channel := ChannelKind.pingChannel
        { c with
          base := { base with
                    message_manager := base.message_manager.buffer_send message channel },
          sync_manager := sync_manager }
    | (Option.none, sync_manager) =>
        { c with base := base, sync_manager := sync_manager }
  else
    { c with base := base, sync_manager := sync_manager }

/-- Connection::recv_packet from src/shared/src/client/connection.rs
lines 72-78: decode via the base connection; on success, raise
latest_received_server_tick when the packet tick is strictly newer; on
failure, propagate the error. -/
def Connection.recv_packet (c : Connection) (reader : List Nat) :
    Except SerializationError Unit × Connection :=
  match c.base.recv_packet reader with
  | (Except.error e, base) => (Except.error e, { c with base := base })
  | (Except.ok tick, base) =>
      let sync_manager :=
        if c.sync_manager.latest_received_server_tick < tick then
          { c.sync_manager with latest_received_server_tick := tick }
        else c.sync_manager
      (Except.ok (), { c with base := base, sync_manager := sync_manager })

/-- Concrete freshly constructed connection used by the witnesses. -/
def connection0 : Connection :=
  { base := { message_manager := { send_queue := [] }, recv_log := [],
              bookkeeping_steps := 0 },
    input_buffer := [],
    sync_manager := SyncManager.new 7 100 }

/-- Concrete connection whose sync manager is already synced. -/
def connectionSynced : Connection :=
  { connection0 with
    sync_manager := { SyncManager.new 7 100 with synced := true } }

/-- SingleData from the data model: a complete addressable message with
an optional message id, an optional tick tag, and payload bytes. -/
structure SingleData where
  id : Option Nat
  tick : Option Tick
  bytes : List Nat
  deriving DecidableEq, Repr

/-- FragmentData from the data model: message id, fragment index,
fragment count, chunk bytes. -/
structure FragmentData where
  message_id : Nat
  fragment_id : Nat
  num_fragments : Nat
  bytes : List Nat
  deriving DecidableEq, Repr

/-- MessageContainer from src/shared/src/packet/message.rs as described
by the data model: either a complete SingleData or a Fragment. -/
inductive MessageContainer where
  | single (data : SingleData)
  | fragment (data : FragmentData)
  deriving DecidableEq, Repr

/-- Modelled from the spec: the UnorderedUnreliable receiver (its source
file is outside the excerpt) delivers messages as received, duplicates
accepted; fragments are held for reassembly. -/
structure UnorderedUnreliableReceiver where
  recv_message_buffer : List SingleData
  fragment_receiver : List FragmentData
  deriving DecidableEq, Repr

/-- Fresh UnorderedUnreliable receiver. -/
def UnorderedUnreliableReceiver.new : UnorderedUnreliableReceiver :=
  { recv_message_buffer := [], fragment_receiver := [] }

/-- Modelled from the spec: UnorderedUnreliable update is a no-op. -/
def UnorderedUnreliableReceiver.update (r : UnorderedUnreliableReceiver)
    (_time : Nat) (_tick : Tick) : UnorderedUnreliableReceiver := r

/-- Modelled from the spec: UnorderedUnreliable buffer_recv queues every
arrived message as is. -/
def UnorderedUnreliableReceiver.buffer_recv (r : UnorderedUnreliableReceiver)
    (m : MessageContainer) : Except String UnorderedUnreliableReceiver :=
  match m with
  | MessageContainer.single d =>
      Except.ok { r with recv_message_buffer := r.recv_message_buffer ++ [d] }
  | MessageContainer.fragment f =>
      Except.ok { r with fragment_receiver := r.fragment_receiver ++ [f] }

/-- Modelled from the spec: UnorderedUnreliable read_message pops the
first queued message. -/
def UnorderedUnreliableReceiver.read_message (r : UnorderedUnreliableReceiver) :
    Option SingleData × UnorderedUnreliableReceiver :=
  match r.recv_message_buffer with
  | [] => (Option.none, r)
  | d :: rest => (Option.some d, { r with recv_message_buffer := rest })

/-- Modelled from the spec: the SequencedUnreliable receiver only ever
delivers the highest sequence number seen; older arrivals are discarded. -/
structure SequencedUnreliableReceiver where
  most_recent_message_id : Option Nat
  pending : Option SingleData
  fragment_receiver : List FragmentData
  deriving DecidableEq, Repr

/-- Fresh SequencedUnreliable receiver. -/
def SequencedUnreliableReceiver.new : SequencedUnreliableReceiver :=
  { most_recent_message_id := Option.none, pending := Option.none,
    fragment_receiver := [] }

/-- Modelled from the spec: SequencedUnreliable update is a no-op. -/
def SequencedUnreliableReceiver.update (r : SequencedUnreliableReceiver)
    (_time : Nat) (_tick : Tick) : SequencedUnreliableReceiver := r

/-- Modelled from the spec: SequencedUnreliable buffer_recv keeps the
message only when its sequence number is newer than every one seen. -/
def SequencedUnreliableReceiver.buffer_recv (r : SequencedUnreliableReceiver)
    (m : MessageContainer) : Except String SequencedUnreliableReceiver :=
  match m with
  | MessageContainer.fragment f =>
      Except.ok { r with fragment_receiver := r.fragment_receiver ++ [f] }
  | MessageContainer.single d =>
    match d.id with
    | Option.none => Except.error "sequenced message without id"
    | Option.some i =>
      match r.most_recent_message_id with
      | Option.none =>
          Except.ok { r with most_recent_message_id := Option.some i,
                             pending := Option.some d }
      | Option.some most =>
          if most < i then
            Except.ok { r with most_recent_message_id := Option.some i,
                               pending := Option.some d }
          else Except.ok r

/-- Modelled from the spec: SequencedUnreliable read_message takes the
pending newest message. -/
def SequencedUnreliableReceiver.read_message (r : SequencedUnreliableReceiver) :
    Option SingleData × SequencedUnreliableReceiver :=
  (r.pending, { r with pending := Option.none })

/-- Modelled from the spec: the OrderedReliable receiver delivers in
strict send order; out-of-order arrivals wait in the reorder buffer
until the gap is filled. pending_recv_message_id is the next sequence
number to hand to the consumer; sequence numbering starts at 1 as in the
delivery property of the spec. -/
structure OrderedReliableReceiver where
  pending_recv_message_id : Nat
  recv_message_buffer : List (Nat × SingleData)
  fragment_receiver : List FragmentData
  deriving DecidableEq, Repr

/-- Fresh OrderedReliable receiver, expecting sequence number 1 first. -/
def OrderedReliableReceiver.new : OrderedReliableReceiver :=
  { pending_recv_message_id := 1, recv_message_buffer := [],
    fragment_receiver := [] }

/-- Modelled from the spec: OrderedReliable update is a no-op on the
receive side (resend timers live on the sender side). -/
def OrderedReliableReceiver.update (r : OrderedReliableReceiver)
    (_time : Nat) (_tick : Tick) : OrderedReliableReceiver := r

/-- Modelled from the spec: OrderedReliable buffer_recv holds an arrival
in the reorder buffer unless the sequence number was already delivered
or is already buffered (duplicates are dropped). -/
def OrderedReliableReceiver.buffer_recv (r : OrderedReliableReceiver)
    (m : MessageContainer) : Except String OrderedReliableReceiver :=
  match m with
  | MessageContainer.fragment f =>
      Except.ok { r with fragment_receiver := r.fragment_receiver ++ [f] }
  | MessageContainer.single d =>
    match d.id with
    | Option.none => Except.error "reliable message without id"
    | Option.some i =>
      if i < r.pending_recv_message_id then Except.ok r
      else if r.recv_message_buffer.any (fun p => p.1 == i) then Except.ok r
      else Except.ok { r with recv_message_buffer := r.recv_message_buffer ++ [(i, d)] }

/-- Modelled from the spec: OrderedReliable read_message delivers the
message with the next expected sequence number when it is buffered, and
nothing while that sequence number is missing. -/
def OrderedReliableReceiver.read_message (r : OrderedReliableReceiver) :
    Option SingleData × OrderedReliableReceiver :=
  match r.recv_message_buffer.find? (fun p => p.1 == r.pending_recv_message_id) with
  | Option.none => (Option.none, r)
  | Option.some entry =>
      (Option.some entry.2,
       { r with pending_recv_message_id := r.pending_recv_message_id + 1,
                recv_message_buffer :=
                  r.recv_message_buffer.filter
                    (fun p => p.1 != r.pending_recv_message_id) })

/-- Modelled from the spec: the SequencedReliable receiver delivers the
latest value reliably; a newer value supersedes an older one. Its
receive-side view is latest-wins like SequencedUnreliable. -/
structure SequencedReliableReceiver where
  most_recent_message_id : Option Nat
  pending : Option SingleData
  fragment_receiver : List FragmentData
  deriving DecidableEq, Repr

/-- Fresh SequencedReliable receiver. -/
def SequencedReliableReceiver.new : SequencedReliableReceiver :=
  { most_recent_message_id := Option.none, pending := Option.none,
    fragment_receiver := [] }

/-- Modelled from the spec: SequencedReliable update is a no-op on the
receive side. -/
def SequencedReliableReceiver.update (r : SequencedReliableReceiver)
    (_time : Nat) (_tick : Tick) : SequencedReliableReceiver := r

/-- Modelled from the spec: SequencedReliable buffer_recv keeps only a
message newer than every one seen. -/
def SequencedReliableReceiver.buffer_recv (r : SequencedReliableReceiver)
    (m : MessageContainer) : Except String SequencedReliableReceiver :=
  match m with
  | MessageContainer.fragment f =>
      Except.ok { r with fragment_receiver := r.fragment_receiver ++ [f] }
  | MessageContainer.single d =>
    match d.id with
    | Option.none => Except.error "reliable message without id"
    | Option.some i =>
      match r.most_recent_message_id with
      | Option.none =>
          Except.ok { r with most_recent_message_id := Option.some i,
                             pending := Option.some d }
      | Option.some most =>
          if most < i then
            Except.ok { r with most_recent_message_id := Option.some i,
                               pending := Option.some d }
          else Except.ok r

/-- Modelled from the spec: SequencedReliable read_message takes the
pending newest message. -/
def SequencedReliableReceiver.read_message (r : SequencedReliableReceiver) :
    Option SingleData × SequencedReliableReceiver :=
  (r.pending, { r with pending := Option.none })

/-- Modelled from the spec: the UnorderedReliable receiver delivers every
distinct sequence number exactly once, in arbitrary order; duplicates
are deduplicated by sequence number. -/
structure UnorderedReliableReceiver where
  delivered : List Nat
  recv_message_buffer : List (Nat × SingleData)
  fragment_receiver : List FragmentData
  deriving DecidableEq, Repr

/-- Fresh UnorderedReliable receiver. -/
def UnorderedReliableReceiver.new : UnorderedReliableReceiver :=
  { delivered := [], recv_message_buffer := [], fragment_receiver := [] }

/-- Modelled from the spec: UnorderedReliable update is a no-op on the
receive side. -/
def UnorderedReliableReceiver.update (r : UnorderedReliableReceiver)
    (_time : Nat) (_tick : Tick) : UnorderedReliableReceiver := r

/-- Modelled from the spec: UnorderedReliable buffer_recv drops an
arrival whose sequence number was already delivered or buffered. -/
def UnorderedReliableReceiver.buffer_recv (r : UnorderedReliableReceiver)
    (m : MessageContainer) : Except String UnorderedReliableReceiver :=
  match m with
  | MessageContainer.fragment f =>
      Except.ok { r with fragment_receiver := r.fragment_receiver ++ [f] }
  | MessageContainer.single d =>
    match d.id with
    | Option.none => Except.error "reliable message without id"
    | Option.some i =>
      if r.delivered.any (fun j => j == i) then Except.ok r
      else if r.recv_message_buffer.any (fun p => p.1 == i) then Except.ok r
      else Except.ok { r with recv_message_buffer := r.recv_message_buffer ++ [(i, d)] }

/-- Modelled from the spec: UnorderedReliable read_message pops any
buffered message (here the first) and records its sequence number as
delivered. -/
def UnorderedReliableReceiver.read_message (r : UnorderedReliableReceiver) :
    Option SingleData × UnorderedReliableReceiver :=
  match r.recv_message_buffer with
  | [] => (Option.none, r)
  | entry :: rest =>
      (Option.some entry.2,
       { r with recv_message_buffer := rest,
                delivered := r.delivered ++ [entry.1] })

/-- Modelled from the spec: the TickUnreliable receiver buffers each
message by the simulation tick it is tagged with and exposes it for its
tick; messages for an already-passed or already-filled tick are dropped. -/
structure TickUnreliableReceiver where
  current_tick : Tick
  recv_message_buffer : List (Tick × SingleData)
  fragment_receiver : List FragmentData
  deriving DecidableEq, Repr

/-- Fresh TickUnreliable receiver. -/
def TickUnreliableReceiver.new : TickUnreliableReceiver :=
  { current_tick := 0, recv_message_buffer := [], fragment_receiver := [] }

/-- Modelled from the spec: TickUnreliable update records the current
simulation tick. -/
def TickUnreliableReceiver.update (r : TickUnreliableReceiver)
    (_time : Nat) (tick : Tick) : TickUnreliableReceiver :=
  { r with current_tick := tick }

/-- Modelled from the spec: TickUnreliable buffer_recv drops a message
for an already-passed or already-filled tick, otherwise files it under
its tick. -/
def TickUnreliableReceiver.buffer_recv (r : TickUnreliableReceiver)
    (m : MessageContainer) : Except String TickUnreliableReceiver :=
  match m with
  | MessageContainer.fragment f =>
      Except.ok { r with fragment_receiver := r.fragment_receiver ++ [f] }
  | MessageContainer.single d =>
    match d.tick with
    | Option.none => Except.error "tick message without tick"
    | Option.some t =>
      if t < r.current_tick then Except.ok r
      else if r.recv_message_buffer.any (fun p => p.1 == t) then Except.ok r
      else Except.ok { r with recv_message_buffer := r.recv_message_buffer ++ [(t, d)] }

/-- Modelled from the spec: TickUnreliable read_message exposes the first
buffered message whose tick has been reached. -/
def TickUnreliableReceiver.read_message (r : TickUnreliableReceiver) :
    Option SingleData × TickUnreliableReceiver :=
  match r.recv_message_buffer.find? (fun p => decide (p.1 ≤ r.current_tick)) with
  | Option.none => (Option.none, r)
  | Option.some entry =>
      (Option.some entry.2,
       { r with recv_message_buffer :=
                  r.recv_message_buffer.filter
                    (fun p => !(p == entry)) })

/-- Tag naming the six variants of the ChannelReceiver enum from
src/shared/src/channel/receivers/mod.rs lines 31-38. -/
inductive ChannelReceiverKind where
  | unorderedUnreliable
  | sequencedUnreliable
  | orderedReliable
  | sequencedReliable
  | unorderedReliable
  | tickUnreliable
  deriving DecidableEq, Fintype, Repr

/-- The ChannelReceiver enum from src/shared/src/channel/receivers/mod.rs
lines 31-38: one variant per channel kind, each holding the
corresponding receiver state. -/
inductive ChannelReceiver where
  | unorderedUnreliable (r : UnorderedUnreliableReceiver)
  | sequencedUnreliable (r : SequencedUnreliableReceiver)
  | orderedReliable (r : OrderedReliableReceiver)
  | sequencedReliable (r : SequencedReliableReceiver)
  | unorderedReliable (r : UnorderedReliableReceiver)
  | tickUnreliable (r : TickUnreliableReceiver)
  deriving DecidableEq, Repr

/-- The variant tag of a ChannelReceiver. -/
def ChannelReceiver.kind : ChannelReceiver → ChannelReceiverKind
  | ChannelReceiver.unorderedUnreliable _ => ChannelReceiverKind.unorderedUnreliable
  | ChannelReceiver.sequencedUnreliable _ => ChannelReceiverKind.sequencedUnreliable
  | ChannelReceiver.orderedReliable _ => ChannelReceiverKind.orderedReliable
  | ChannelReceiver.sequencedReliable _ => ChannelReceiverKind.sequencedReliable
  | ChannelReceiver.unorderedReliable _ => ChannelReceiverKind.unorderedReliable
  | ChannelReceiver.tickUnreliable _ => ChannelReceiverKind.tickUnreliable

/-- Enum-dispatched update (ChannelReceive::update), delegating to the
variant implementation. -/
def ChannelReceiver.update : ChannelReceiver → Nat → Tick → ChannelReceiver
  | ChannelReceiver.unorderedUnreliable r, time, tick =>
      ChannelReceiver.unorderedUnreliable (r.update time tick)
  | ChannelReceiver.sequencedUnreliable r, time, tick =>
      ChannelReceiver.sequencedUnreliable (r.update time tick)
  | ChannelReceiver.orderedReliable r, time, tick =>
      ChannelReceiver.orderedReliable (r.update time tick)
  | ChannelReceiver.sequencedReliable r, time, tick =>
      ChannelReceiver.sequencedReliable (r.update time tick)
  | ChannelReceiver.unorderedReliable r, time, tick =>
      ChannelReceiver.unorderedReliable (r.update time tick)
  | ChannelReceiver.tickUnreliable r, time, tick =>
      ChannelReceiver.tickUnreliable (r.update time tick)

/-- Enum-dispatched buffer_recv (ChannelReceive::buffer_recv),
delegating to the variant implementation. -/
def ChannelReceiver.buffer_recv :
    ChannelReceiver → MessageContainer → Except String ChannelReceiver
  | ChannelReceiver.unorderedUnreliable r, m =>
      (r.buffer_recv m).map ChannelReceiver.unorderedUnreliable
  | ChannelReceiver.sequencedUnreliable r, m =>
      (r.buffer_recv m).map ChannelReceiver.sequencedUnreliable
  | ChannelReceiver.orderedReliable r, m =>
      (r.buffer_recv m).map ChannelReceiver.orderedReliable
  | ChannelReceiver.sequencedReliable r, m =>
      (r.buffer_recv m).map ChannelReceiver.sequencedReliable
  | ChannelReceiver.unorderedReliable r, m =>
      (r.buffer_recv m).map ChannelReceiver.unorderedReliable
  | ChannelReceiver.tickUnreliable r, m =>
      (r.buffer_recv m).map ChannelReceiver.tickUnreliable

/-- Enum-dispatched read_message (ChannelReceive::read_message),
delegating to the variant implementation. -/
def ChannelReceiver.read_message :
    ChannelReceiver → Option SingleData × ChannelReceiver
  | ChannelReceiver.unorderedUnreliable r =>
      let res := r.read_message
      (res.1, ChannelReceiver.unorderedUnreliable res.2)
  | ChannelReceiver.sequencedUnreliable r =>
      let res := r.read_message
      (res.1, ChannelReceiver.sequencedUnreliable res.2)
  | ChannelReceiver.orderedReliable r =>
      let res := r.read_message
      (res.1, ChannelReceiver.orderedReliable res.2)
  | ChannelReceiver.sequencedReliable r =>
      let res := r.read_message
      (res.1, ChannelReceiver.sequencedReliable res.2)
  | ChannelReceiver.unorderedReliable r =>
      let res := r.read_message
      (res.1, ChannelReceiver.unorderedReliable res.2)
  | ChannelReceiver.tickUnreliable r =>
      let res := r.read_message
      (res.1, ChannelReceiver.tickUnreliable res.2)

/-- A single message carrying sequence number i and payload [i], used by
the delivery-order test harness. -/
def mkSingle (i : Nat) : SingleData :=
  { id := Option.some i, tick := Option.none, bytes := [i] }

/-- Buffer a list of sequence-numbered messages into an OrderedReliable
receiver, in list order. -/
def bufferAll (r : OrderedReliableReceiver) (seqs : List Nat) :
    OrderedReliableReceiver :=
  seqs.foldl
    (fun acc i =>
      match acc.buffer_recv (MessageContainer.single (mkSingle i)) with
      | Except.ok next => next
      | Except.error _ => acc)
    r

/-- Repeatedly call read_message up to the given fuel, collecting the
delivered messages and the final receiver state. -/
def drainFuel : Nat → OrderedReliableReceiver →
    List SingleData × OrderedReliableReceiver
  | 0, r => ([], r)
  | Nat.succ n, r =>
    match r.read_message with
    | (Option.none, r2) => ([], r2)
    | (Option.some d, r2) =>
        let rest := drainFuel n r2
        (d :: rest.1, rest.2)

/-- Drain every currently deliverable message from an OrderedReliable
receiver. -/
def OrderedReliableReceiver.drain (r : OrderedReliableReceiver) :
    List SingleData × OrderedReliableReceiver :=
  drainFuel r.recv_message_buffer.length r

end Lightyear

namespace Lightyear

/-- C9: The packet-size budget constant MTU equals 1472 bytes, and the
QUIC-safe minimum constant MIN_MTU equals 1300 bytes. -/
theorem mtu_constants : MTU = 1472 ∧ MIN_MTU = 1300 := by
  constructor <;> rfl

/-- C10: ClientTransport::default() is UdpSocket(LOCAL_SOCKET), a UDP
socket bound to 127.0.0.1 on port 0; it is never a Dummy or LocalChannel
transport. -/
theorem client_transport_default_is_local_udp :
    ClientTransport.defaultValue = ClientTransport.udpSocket LOCAL_SOCKET ∧
    LOCAL_SOCKET = ⟨IpAddr.v4 127 0 0 1, 0⟩ ∧
    (∀ r s : Nat, ClientTransport.defaultValue ≠ ClientTransport.localChannel r s) ∧
    ClientTransport.defaultValue ≠ ClientTransport.dummy := by
  refine ⟨rfl, rfl, ?_, ?_⟩
  · intro r s h
    cases h
  · intro h
    cases h

/-- C1: middleware composition order in SharedIoConfig::connect. On the
receive path the conditioner (when configured) wraps the raw receiver
first and the decompressor (when a codec is configured) wraps outermost;
on the send path only the compressor wraps the raw sender; the sender
stack never contains a conditioner, for every combination of transport,
conditioner and compression settings. -/
theorem connect_middleware_order (cfg : SharedIoConfig) :
    (cfg.connect.receiver =
      (match cfg.compression with
        | CompressionConfig.none => id
        | CompressionConfig.zstd _ => IoLayer.decompressor
        | CompressionConfig.lz4 => IoLayer.decompressor)
      (match cfg.conditioner with
        | Option.some c => IoLayer.conditioner c (IoLayer.raw cfg.transport)
        | Option.none => IoLayer.raw cfg.transport)) ∧
    (cfg.connect.sender =
      (match cfg.compression with
        | CompressionConfig.none => id
        | CompressionConfig.zstd _ => IoLayer.compressor
        | CompressionConfig.lz4 => IoLayer.compressor)
      (IoLayer.raw cfg.transport)) ∧
    cfg.connect.sender.hasConditioner = false := by
  obtain ⟨t, cond, comp⟩ := cfg
  cases cond <;> cases comp <;>
    exact ⟨rfl, rfl, rfl⟩

/-- Per-call monotonicity of latest_received_server_tick under
recv_packet, on both the success and the error path. -/
theorem recv_packet_tick_mono (c : Connection) (reader : List Nat) :
    c.sync_manager.latest_received_server_tick ≤
      (c.recv_packet reader).2.sync_manager.latest_received_server_tick := by
  simp only [Connection.recv_packet]
  cases hb : c.base.recv_packet reader with
  | mk res base =>
    cases res with
    | error e => simp
    | ok tick =>
      by_cases hlt : c.sync_manager.latest_received_server_tick < tick
      · simp [hlt]
        exact le_of_lt hlt
      · simp [hlt]

/-- Monotonicity of latest_received_server_tick across any sequence of
recv_packet calls. -/
theorem recv_packet_fold_mono (readers : List (List Nat)) (c : Connection) :
    c.sync_manager.latest_received_server_tick ≤
      (readers.foldl (fun acc r => (acc.recv_packet r).2) c).sync_manager.latest_received_server_tick := by
  induction readers generalizing c with
  | nil => simp
  | cons r rs ih =>
    simp only [List.foldl_cons]
    exact le_trans (recv_packet_tick_mono c r) (ih _)

/-- C2: a successful recv_packet leaves latest_received_server_tick equal
to the max of its prior value and the decoded packet tick; the field
never decreases across any sequence of recv_packet calls; a packet whose
tick is not strictly newer leaves the sync manager unchanged. -/
theorem recv_packet_latest_tick_is_max (c : Connection) (reader : List Nat)
    (tick : Tick) (base2 : BaseConnection)
    (h : c.base.recv_packet reader = (Except.ok tick, base2)) :
    ((c.recv_packet reader).1 = Except.ok () ∧
      (c.recv_packet reader).2.sync_manager.latest_received_server_tick
        = max c.sync_manager.latest_received_server_tick tick) ∧
    (tick ≤ c.sync_manager.latest_received_server_tick →
      (c.recv_packet reader).2.sync_manager = c.sync_manager) ∧
    (∀ readers : List (List Nat), ∀ c0 : Connection,
      c0.sync_manager.latest_received_server_tick ≤
        (readers.foldl (fun acc r => (acc.recv_packet r).2) c0).sync_manager.latest_received_server_tick) := by
  refine ⟨⟨?_, ?_⟩, ?_, fun readers c0 => recv_packet_fold_mono readers c0⟩
  · simp only [Connection.recv_packet, h]
  · simp only [Connection.recv_packet, h]
    by_cases hlt : c.sync_manager.latest_received_server_tick < tick
    · simp [hlt]
      exact le_of_lt hlt
    · simp [hlt]
      exact le_of_not_lt hlt
  · intro hle
    simp only [Connection.recv_packet, h]
    have hnlt : ¬ c.sync_manager.latest_received_server_tick < tick := not_lt.mpr hle
    simp [hnlt]

/-- Witness for C2 at a concrete connection and packet. -/
theorem recv_packet_latest_tick_is_max_witness :
    (connection0.recv_packet [5]).1 = Except.ok () ∧
    (connection0.recv_packet [5]).2.sync_manager.latest_received_server_tick
      = max connection0.sync_manager.latest_received_server_tick 5 :=
  (recv_packet_latest_tick_is_max connection0 [5] 5
    { message_manager := { send_queue := [] }, recv_log := [[]],
      bookkeeping_steps := 0 } rfl).1

/-- C6: when the inner packet decode fails, recv_packet propagates the
error and the sync manager keeps exactly the state it had before. -/
theorem recv_packet_error_preserves_sync (c : Connection) (reader : List Nat)
    (e : SerializationError) (base2 : BaseConnection)
    (h : c.base.recv_packet reader = (Except.error e, base2)) :
    (c.recv_packet reader).1 = Except.error e ∧
    (c.recv_packet reader).2.sync_manager = c.sync_manager := by
  simp [Connection.recv_packet, h]

/-- Witness for C6 at the empty (malformed) packet. -/
theorem recv_packet_error_preserves_sync_witness :
    (connection0.recv_packet []).1 = Except.error SerializationError.malformedHeader ∧
    (connection0.recv_packet []).2.sync_manager = connection0.sync_manager :=
  recv_packet_error_preserves_sync connection0 []
    SerializationError.malformedHeader connection0.base rfl

/-- C4: while unsynced, when the ping interval has elapsed so
maybe_prepare_ping yields a probe, Connection::update buffers exactly
that probe as a TimeSyncPing on the PingChannel. -/
theorem update_buffers_sync_ping_when_unsynced (c : Connection)
    (delta_ms time tick : Nat) (ping : TimeSyncPingMessage) (sm2 : SyncManager)
    (hsync : (c.sync_manager.update delta_ms).is_synced = false)
    (hping : (c.sync_manager.update delta_ms).maybe_prepare_ping time tick
      = (Option.some ping, sm2)) :
    (c.update delta_ms time tick).base.message_manager.send_queue
      = c.base.message_manager.send_queue
        ++ [(ProtocolMessage.sync (SyncMessage.timeSyncPing ping),
             ChannelKind.pingChannel)] ∧
    (c.update delta_ms time tick).sync_manager = sm2 := by
  simp [Connection.update, hsync, hping, BaseConnection.update,
    MessageManager.buffer_send]

/-- Witness for C4: a fresh connection with a 100 ms ping interval,
updated by 150 ms, buffers a sync ping. -/
theorem update_buffers_sync_ping_when_unsynced_witness :
    (connection0.update 150 42 7).base.message_manager.send_queue
      = connection0.base.message_manager.send_queue
        ++ [(ProtocolMessage.sync (SyncMessage.timeSyncPing
              { ping_id := 0, tick := 7, ping_sent_time := 42 }),
             ChannelKind.pingChannel)] :=
  (update_buffers_sync_ping_when_unsynced connection0 150 42 7
    { ping_id := 0, tick := 7, ping_sent_time := 42 }
    { synced := false, elapsed_ms := 0, ping_interval_ms := 100,
      sync_num_pings := 7, pings_sent := 1, latest_received_server_tick := 0 }
    rfl rfl).1

/-- C5: once the sync manager reports synced, Connection::update buffers
no sync ping at all: the send queue is untouched and the sync manager
only advances its timer (no probe is prepared). -/
theorem update_no_ping_when_synced (c : Connection)
    (delta_ms time tick : Nat)
    (hsync : (c.sync_manager.update delta_ms).is_synced = true) :
    (c.update delta_ms time tick).base.message_manager.send_queue
      = c.base.message_manager.send_queue ∧
    (c.update delta_ms time tick).sync_manager
      = c.sync_manager.update delta_ms := by
  simp [Connection.update, hsync, BaseConnection.update]

/-- Witness for C5: a synced connection updated by 150 ms buffers
nothing. -/
theorem update_no_ping_when_synced_witness :
    (connectionSynced.update 150 42 7).base.message_manager.send_queue
      = connectionSynced.base.message_manager.send_queue :=
  (update_no_ping_when_synced connectionSynced 150 42 7 rfl).1

/-- C7: the recv of a transport receiver reports absence of data as
Ok(None) — a normal non-blocking return — and produces an error only on
an actual socket failure; Ok(None) is never an error value. -/
theorem recv_distinguishes_empty_from_error (r : PacketReceiverState) :
    (r.socket_failed = Option.none → r.pending = [] →
      (r.recv).1 = Except.ok Option.none) ∧
    (∀ e, (r.recv).1 = Except.error e → r.socket_failed = Option.some e) ∧
    (∀ e, (Except.ok Option.none : RecvResult) ≠ Except.error e) := by
  obtain ⟨pending, failed⟩ := r
  refine ⟨?_, ?_, ?_⟩
  · intro hf hp
    subst hf
    subst hp
    rfl
  · intro e he
    cases failed with
    | none =>
      cases pending with
      | nil => exact absurd he (by simp [PacketReceiverState.recv])
      | cons p rest => exact absurd he (by simp [PacketReceiverState.recv])
    | some e2 =>
      simp only [PacketReceiverState.recv] at he
      cases he
      rfl
  · intro e h
    cases h

/-- Witness for C7: the empty, healthy receiver returns Ok(None). -/
theorem recv_distinguishes_empty_from_error_witness :
    ((⟨[], Option.none⟩ : PacketReceiverState).recv).1
      = Except.ok Option.none :=
  (recv_distinguishes_empty_from_error ⟨[], Option.none⟩).1 rfl rfl

/-- C3: on the OrderedReliable receiver, ingesting any permutation of
sequence numbers 1..5 and draining read_message yields the messages in
exactly the order 1,2,3,4,5, with no duplicates and no omissions; with
one sequence number g missing, only the prefix below g is delivered,
every held message has a sequence number above g, and filling the gap
releases the rest in order. -/
theorem ordered_reliable_inorder_delivery (p : List Nat)
    (hp : p.Perm [1,2,3,4,5]) :
    (bufferAll OrderedReliableReceiver.new p).drain.1
      = [1,2,3,4,5].map mkSingle ∧
    (∀ g ∈ [1,2,3,4,5], ∀ q : List Nat,
      q.Perm (List.filter (fun i => i != g) [1,2,3,4,5]) →
      ((bufferAll OrderedReliableReceiver.new q).drain.1
          = (List.range' 1 (g-1)).map mkSingle ∧
       ((bufferAll OrderedReliableReceiver.new q).drain.2.recv_message_buffer.map
          Prod.fst).all (fun i => decide (g < i)) = true ∧
       (bufferAll (bufferAll OrderedReliableReceiver.new q).drain.2 [g]).drain.1
          = (List.range' g (6-g)).map mkSingle)) := by
  constructor
  · have hall : ∀ q ∈ List.permutations' [1,2,3,4,5],
        (bufferAll OrderedReliableReceiver.new q).drain.1
          = [1,2,3,4,5].map mkSingle := by decide
    exact hall p (List.mem_permutations'.mpr hp)
  · have hall2 : ∀ g ∈ [1,2,3,4,5],
        ∀ q ∈ List.permutations' (List.filter (fun i => i != g) [1,2,3,4,5]),
        ((bufferAll OrderedReliableReceiver.new q).drain.1
            = (List.range' 1 (g-1)).map mkSingle ∧
         ((bufferAll OrderedReliableReceiver.new q).drain.2.recv_message_buffer.map
            Prod.fst).all (fun i => decide (g < i)) = true ∧
         (bufferAll (bufferAll OrderedReliableReceiver.new q).drain.2 [g]).drain.1
            = (List.range' g (6-g)).map mkSingle) := by decide
    intro g hg q hq
    exact hall2 g hg q (List.mem_permutations'.mpr hq)

/-- Witness for C3 at the concrete permutation [3,1,5,2,4]. -/
theorem ordered_reliable_inorder_delivery_witness :
    (bufferAll OrderedReliableReceiver.new [3,1,5,2,4]).drain.1
      = [1,2,3,4,5].map mkSingle :=
  (ordered_reliable_inorder_delivery [3,1,5,2,4] (by decide)).1

/-- C8: the ChannelReceiver dispatch type has exactly six variants —
UnorderedUnreliable, SequencedUnreliable, OrderedReliable,
SequencedReliable, UnorderedReliable, TickUnreliable — every variant is
inhabited, and the three dispatched operations update, buffer_recv and
read_message are total and stay within the variant they were called on. -/
theorem channel_receiver_six_variants :
    Fintype.card ChannelReceiverKind = 6 ∧
    Function.Surjective ChannelReceiver.kind ∧
    (∀ c : ChannelReceiver, ∀ time : Nat, ∀ tick : Tick,
      (c.update time tick).kind = c.kind) ∧
    (∀ c c2 : ChannelReceiver, ∀ m : MessageContainer,
      c.buffer_recv m = Except.ok c2 → c2.kind = c.kind) ∧
    (∀ c : ChannelReceiver, (c.read_message).2.kind = c.kind) := by
  refine ⟨by rfl, ?_, ?_, ?_, ?_⟩
  · intro t
    cases t with
    | unorderedUnreliable =>
        exact ⟨ChannelReceiver.unorderedUnreliable UnorderedUnreliableReceiver.new, rfl⟩
    | sequencedUnreliable =>
        exact ⟨ChannelReceiver.sequencedUnreliable SequencedUnreliableReceiver.new, rfl⟩
    | orderedReliable =>
        exact ⟨ChannelReceiver.orderedReliable OrderedReliableReceiver.new, rfl⟩
    | sequencedReliable =>
        exact ⟨ChannelReceiver.sequencedReliable SequencedReliableReceiver.new, rfl⟩
    | unorderedReliable =>
        exact ⟨ChannelReceiver.unorderedReliable UnorderedReliableReceiver.new, rfl⟩
    | tickUnreliable =>
        exact ⟨ChannelReceiver.tickUnreliable TickUnreliableReceiver.new, rfl⟩
  · intro c time tick
    cases c <;> rfl
  · intro c c2 m h
    cases c <;>
      ( rename_i r
        cases hres : r.buffer_recv m with
        | error e => simp [ChannelReceiver.buffer_recv, hres, Except.map] at h
        | ok r2 =>
          simp [ChannelReceiver.buffer_recv, hres, Except.map] at h
          subst h
          rfl )
  · intro c
    cases c <;> rfl

/-- Witness for C8 at a concrete receiver and message: buffering a
message into a fresh OrderedReliable variant stays in that variant. -/
theorem channel_receiver_six_variants_witness :
    (ChannelReceiver.orderedReliable
      { pending_recv_message_id := 1,
        recv_message_buffer := [(1, mkSingle 1)],
        fragment_receiver := [] }).kind
      = (ChannelReceiver.orderedReliable OrderedReliableReceiver.new).kind :=
  channel_receiver_six_variants.2.2.2.1
    (ChannelReceiver.orderedReliable OrderedReliableReceiver.new)
    (ChannelReceiver.orderedReliable
      { pending_recv_message_id := 1,
        recv_message_buffer := [(1, mkSingle 1)],
        fragment_receiver := [] })
    (MessageContainer.single (mkSingle 1))
    rfl

end Lightyear
